import Mathlib

/-!
Verification development for the fdray scene-description builder.

Shallow embedding of the core value-to-text model: the object/CSG algebra
and sphere-sweep family (`src/fdray/object.py` with `src/fdray/core.py`),
the two color models (`src/fdray/core/color.py` and `src/fdray/colors.py`),
vector algebra and the spherical camera (`src/fdray/vector.py`,
`src/fdray/camera.py`), scene serialization ordering
(`src/fdray/core/scene.py`) and the scoped descriptor override
(`src/fdray/core.py`).

Numeric scalars occurring in geometry are represented by an arbitrary
commutative ring `α` together with an arbitrary rendering function
`toStr : α → String` standing for Python's `str`/`"{:.5g}"` formatting;
all structural serialization claims are proved for every such rendering.
Camera and vector analysis is carried out over the real numbers, matching
the claims' "exactly in real arithmetic" reading.
-/

namespace Fdray

/-! ### Python numeric-literal helpers shared by the color models -/

/-- Hexadecimal digit value accepted by Python `int(_, 16)` (ASCII digits
and letters). -/
def hexVal (c : Char) : Option ℕ :=
  if '0'.toNat ≤ c.toNat ∧ c.toNat ≤ '9'.toNat then some (c.toNat - '0'.toNat)
  else if 'a'.toNat ≤ c.toNat ∧ c.toNat ≤ 'f'.toNat then some (c.toNat - 'a'.toNat + 10)
  else if 'A'.toNat ≤ c.toNat ∧ c.toNat ≤ 'F'.toNat then some (c.toNat - 'A'.toNat + 10)
  else none

/-- ASCII whitespace stripped by Python `int()` around a numeric literal. -/
def isPySpace (c : Char) : Bool :=
  c = ' ' ∨ c = '\t' ∨ c = '\n' ∨ c = '\r' ∨ c = '\x0b' ∨ c = '\x0c'

/-- Python `int(s, 16)` restricted to the two-character ASCII substrings the
color parsers feed it: two hex digits, or a single hex digit padded by
whitespace on either side, or a signed single hex digit. Returns `none`
where Python raises `ValueError`. (Python additionally tolerates non-ASCII
decimal digits and whitespace; the embedding fixes the ASCII alphabet.) -/
def int16two (a b : Char) : Option ℤ :=
  match hexVal a, hexVal b with
  | some x, some y => some (16 * (x : ℤ) + (y : ℤ))
  | some x, none => if isPySpace b then some (x : ℤ) else none
  | none, some y =>
    if isPySpace a then some (y : ℤ)
    else if a = '+' then some (y : ℤ)
    else if a = '-' then some (-(y : ℤ))
    else none
  | none, none => none

namespace Obj

/-! ### The object / CSG model (`src/fdray/object.py`, `src/fdray/core.py`) -/

/-- A positional point argument: a 3-tuple of scalars. -/
abbrev Pt (α : Type) := α × α × α

/-- Interpolation kinds of `SphereSweep`. -/
inductive SplineKind where
  | linearSpline
  | bSpline
  | cubicSpline
deriving DecidableEq

/-- The `radius` argument of the sweep family: a constant radius or a
per-point sequence of radii (`float | Sequence[float]`). -/
inductive Radius (α : Type) where
  | const (r : α)
  | perPoint (rs : List α)

mutual
/-- Builder nodes of `object.py` used by the claims: the `Sphere`
primitive, the four CSG combinators (zero positional arguments, children
stored in `attrs`), and the sweep family `SphereSweep`/`Polyline`/`Curve`. -/
inductive Node (α : Type) where
  | sphere (center : Pt α) (radius : α) (attrs : Attrs α)
  | union (attrs : Attrs α)
  | intersection (attrs : Attrs α)
  | difference (attrs : Attrs α)
  | merge (attrs : Attrs α)
  | sphereSweep (kind : SplineKind) (centers : List (Pt α)) (radius : Radius α)
      (attrs : Attrs α)
  | polyline (centers : List (Pt α)) (radius : Radius α) (attrs : Attrs α)
  | curve (centers : List (Pt α)) (radius : Radius α) (attrs : Attrs α)

/-- The ordered attribute list of a node: each attribute is either a raw
already-rendered token (Python: a string, record, …, observed only through
`str`) or a child node. -/
inductive Attrs (α : Type) where
  | nil
  | raw (s : String) (rest : Attrs α)
  | obj (o : Node α) (rest : Attrs α)
end

variable {α : Type}

/-- Append of attribute lists (Python `[*self.attrs, other]` etc.). -/
def Attrs.append : Attrs α → Attrs α → Attrs α
  | .nil, ys => ys
  | .raw s rest, ys => .raw s (Attrs.append rest ys)
  | .obj o rest, ys => .obj o (Attrs.append rest ys)

/-- Whether a node is one of the CSG combinators (an instance of `Csg`). -/
def isCsg : Node α → Bool
  | .union _ | .intersection _ | .difference _ | .merge _ => true
  | _ => false

/-- Whether a node is an `Intersection`. -/
def isIntersection : Node α → Bool
  | .intersection _ => true
  | _ => false

/-- Whether a node is a `Difference`. -/
def isDifference : Node α → Bool
  | .difference _ => true
  | _ => false

/-- Whether a node is a `Merge`. -/
def isMerge : Node α → Bool
  | .merge _ => true
  | _ => false

/-- `a + b` on two nodes. `Object.__add__` returns `Union(self, other)`,
but every CSG class inherits `Csg.__add__`, which instead returns
`self.__class__(*self.attrs, other)`. -/
def add : Node α → Node α → Node α
  | .union xs, b => .union (xs.append (.obj b .nil))
  | .intersection xs, b => .intersection (xs.append (.obj b .nil))
  | .difference xs, b => .difference (xs.append (.obj b .nil))
  | .merge xs, b => .merge (xs.append (.obj b .nil))
  | a, b => .union (.obj a (.obj b .nil))

/-- `a * b`: `Object.__mul__` returns `Intersection(self, other)`;
`Intersection.__mul__` is overridden to `Csg.__add__`. -/
def mul : Node α → Node α → Node α
  | .intersection xs, b => .intersection (xs.append (.obj b .nil))
  | a, b => .intersection (.obj a (.obj b .nil))

/-- `a - b`: `Object.__sub__` returns `Difference(self, other)`;
`Difference.__sub__` is overridden to `Csg.__add__`. -/
def sub : Node α → Node α → Node α
  | .difference xs, b => .difference (xs.append (.obj b .nil))
  | a, b => .difference (.obj a (.obj b .nil))

/-- `a | b`: `Object.__or__` returns `Merge(self, other)`;
`Merge.__or__` is overridden to `Csg.__add__`. -/
def orOp : Node α → Node α → Node α
  | .merge xs, b => .merge (xs.append (.obj b .nil))
  | a, b => .merge (.obj a (.obj b .nil))

section Serialization

variable (toStr : α → String)

/-- `utils.convert` on a 3-tuple positional argument: `"<x, y, z>"`. -/
def toStrPt (p : Pt α) : String :=
  "<" ++ toStr p.1 ++ ", " ++ toStr p.2.1 ++ ", " ++ toStr p.2.2 ++ ">"

/-- `Base.__str__`: `f"{name} {{ {' '.join(fragments)} }}"`. -/
def wrapName (name body : String) : String :=
  name ++ " \x7b " ++ body ++ " \x7d"

/-- `Sphere.__str__` given the rendered attribute strings: the positional
fragment `"{convert(center)}, {convert(radius)}"` followed by the non-empty
attribute strings, space-joined inside `sphere { … }`
(`Element.__iter__` + `Base.__str__`). -/
def sphereStrCore (c : Pt α) (r : α) (attrFrags : List String) : String :=
  wrapName "sphere"
    (String.intercalate " "
      ((toStrPt toStr c ++ ", " ++ toStr r) :: attrFrags.filter (fun s => s ≠ "")))

/-- Rendered name of a spline kind. -/
def kindStr : SplineKind → String
  | .linearSpline => "linear_spline"
  | .bSpline => "b_spline"
  | .cubicSpline => "cubic_spline"

/-- The `(center, radius)` pair line of `SphereSweep.__iter__`:
`", ".join(f"{convert(c)}, {convert(r)}" for c, r in zip(centers, radii))`
where `radii` repeats a constant radius and `zip(strict=False)` truncates a
per-point sequence. -/
def pairsLine (centers : List (Pt α)) (radius : Radius α) : String :=
  let pairs : List (Pt α × α) :=
    match radius with
    | .const r => centers.map (fun c => (c, r))
    | .perPoint rs => centers.zip rs
  String.intercalate ", " (pairs.map (fun p => toStrPt toStr p.1 ++ ", " ++ toStr p.2))

/-- The general branch of `SphereSweep.__str__` (via `Base.__str__` over
`SphereSweep.__iter__`): `"{kind}, {len(centers)}"`, the pair line, then
the attribute strings (unfiltered), space-joined inside `sphere_sweep { … }`. -/
def sweepGeneral (kind : SplineKind) (centers : List (Pt α)) (radius : Radius α)
    (attrFrags : List String) : String :=
  wrapName "sphere_sweep"
    (String.intercalate " "
      ((kindStr kind ++ ", " ++ toString centers.length)
        :: pairsLine toStr centers radius :: attrFrags))

/-- Rank used to show the linear-spline fallback recursion of
`SphereSweep.__str__` terminates. -/
def kindRank : SplineKind → ℕ
  | .linearSpline => 0
  | _ => 1

/-- `SphereSweep.__str__` given the rendered attribute strings. In source
order: empty `centers` render as `""`; a single center renders the
`Sphere` of that center (`radius[0]` raises `IndexError` — `none` — on an
empty per-point sequence); `b_spline`/`cubic_spline` with fewer than 4
centers re-render as `linear_spline`; otherwise the general format. -/
def sphereSweepStrCore (kind : SplineKind) (centers : List (Pt α))
    (radius : Radius α) (attrFrags : List String) : Option String :=
  match centers with
  | [] => some ""
  | [c] =>
    match radius with
    | .const r => some (sphereStrCore toStr c r attrFrags)
    | .perPoint [] => none
    | .perPoint (r :: _) => some (sphereStrCore toStr c r attrFrags)
  | _ =>
    if h : (kind = .bSpline ∨ kind = .cubicSpline) ∧ centers.length < 4 then
      sphereSweepStrCore .linearSpline centers radius attrFrags
    else
      some (sweepGeneral toStr kind centers radius attrFrags)
termination_by kindRank kind
decreasing_by
  rcases h.1 with h1 | h1 <;> subst h1 <;> simp [kindRank]

/-- `Polyline.__str__`: delegate to a `linear_spline` sweep over the same
centers, radius and attributes. -/
def polylineStrCore (centers : List (Pt α)) (radius : Radius α)
    (attrFrags : List String) : Option String :=
  sphereSweepStrCore toStr .linearSpline centers radius attrFrags

/-- Modelled from the spec: `reflect_point` is imported from `fdray.utils`
but absent from the sources. Per spec §4.8 and the glossary, reflecting
point `p` through endpoint `q` yields the ghost point `2·q − p`,
componentwise. -/
def reflectPoint [CommRing α] (p q : Pt α) : Pt α :=
  (2 * q.1 - p.1, 2 * q.2.1 - p.2.1, 2 * q.2.2 - p.2.2)

/-- Last element of the nonempty list `a :: rest` (Python `xs[-1]`). -/
def lastOf (a : α) : List α → α
  | [] => a
  | b :: rest => lastOf b rest

/-- Last two elements of a list with at least two elements
(Python `(xs[-2], xs[-1])`). -/
def lastTwo {β : Type} (a b : β) : List β → β × β
  | [] => (a, b)
  | c :: rest => lastTwo b c rest

/-- `Curve.__str__` given the rendered attribute strings: with fewer than
2 centers delegate to `Polyline`; otherwise prepend/append the reflected
ghost points, extend a per-point radius by its first and last values
(`radius[0]`/`radius[-1]` raise — `none` — on an empty sequence), and
delegate to a `cubic_spline` sweep. -/
def curveStrCore [CommRing α] (centers : List (Pt α)) (radius : Radius α)
    (attrFrags : List String) : Option String :=
  match centers with
  | [] => polylineStrCore toStr [] radius attrFrags
  | [c] => polylineStrCore toStr [c] radius attrFrags
  | c0 :: c1 :: rest =>
    let ghostFirst := reflectPoint c1 c0
    let sl := lastTwo c0 c1 (c1 :: rest).tail
    let ghostLast := reflectPoint sl.1 sl.2
    let centers2 := ghostFirst :: (c0 :: c1 :: rest) ++ [ghostLast]
    match radius with
    | .const r => sphereSweepStrCore toStr .cubicSpline centers2 (.const r) attrFrags
    | .perPoint [] => none
    | .perPoint (r :: rs) =>
      sphereSweepStrCore toStr .cubicSpline centers2
        (.perPoint (r :: (r :: rs) ++ [lastOf r rs])) attrFrags

/-- The documented contract of the sweep family's `radius` argument: a
per-point sequence carries one radius per center
("sequence of radii for each sphere"). -/
def radiusOk (radius : Radius α) (centers : List (Pt α)) : Prop :=
  match radius with
  | .const _ => True
  | .perPoint rs => rs.length = centers.length

/-- First radius value (`radius` itself, or `radius[0]` for a per-point
sequence). -/
def radiusFirst [Zero α] : Radius α → α
  | .const r => r
  | .perPoint rs => rs.headD 0

/-- Per-point radius extension described by the spec for `Curve`: a
constant radius is unchanged, a per-point sequence is extended by
replicating its first and last values. -/
def radiusExtend [Zero α] : Radius α → Radius α
  | .const r => .const r
  | .perPoint rs => .perPoint (rs.headD 0 :: rs ++ [rs.getLastD 0])

mutual
/-- `str(node)` for the full node model: `Element.__iter__`/`Base.__str__`
for the sphere and the CSG combinators (CSG nodes have no positional
fragment and join their non-empty attribute fragments), and the overridden
`__str__` of the sweep family. `none` models a raised exception. -/
def strNode [CommRing α] : Node α → Option String
  | .sphere c r attrs =>
    (strAttrs attrs).map (fun fr => sphereStrCore toStr c r fr)
  | .union attrs =>
    (strAttrs attrs).map (fun fr =>
      wrapName "union" (String.intercalate " " (fr.filter (fun s => s ≠ ""))))
  | .intersection attrs =>
    (strAttrs attrs).map (fun fr =>
      wrapName "intersection" (String.intercalate " " (fr.filter (fun s => s ≠ ""))))
  | .difference attrs =>
    (strAttrs attrs).map (fun fr =>
      wrapName "difference" (String.intercalate " " (fr.filter (fun s => s ≠ ""))))
  | .merge attrs =>
    (strAttrs attrs).map (fun fr =>
      wrapName "merge" (String.intercalate " " (fr.filter (fun s => s ≠ ""))))
  | .sphereSweep kind centers radius attrs =>
    (strAttrs attrs).bind (fun fr => sphereSweepStrCore toStr kind centers radius fr)
  | .polyline centers radius attrs =>
    (strAttrs attrs).bind (fun fr => polylineStrCore toStr centers radius fr)
  | .curve centers radius attrs =>
    (strAttrs attrs).bind (fun fr => curveStrCore toStr centers radius fr)

/-- `[str(attr) for attr in attrs]`, propagating a raised exception. -/
def strAttrs [CommRing α] : Attrs α → Option (List String)
  | .nil => some []
  | .raw s rest => (strAttrs rest).map (fun l => s :: l)
  | .obj o rest =>
    match strNode o with
    | none => none
    | some s => (strAttrs rest).map (fun l => s :: l)
end

end Serialization

/-- Integer scalars rendered by Python `str`, used for concrete instances. -/
def zToStr : ℤ → String := toString

/-- Concrete sphere `Sphere((0, 0, 0), 1)`. -/
def csA : Node ℤ := .sphere (0, 0, 0) 1 .nil

/-- Concrete sphere `Sphere((1, 0, 0), 2)`. -/
def csB : Node ℤ := .sphere (1, 0, 0) 2 .nil

/-- Concrete sphere `Sphere((0, 1, 0), 3)`. -/
def csC : Node ℤ := .sphere (0, 1, 0) 3 .nil

end Obj

open Obj

/-- C1, counterexample: for the concrete spheres `a = Sphere((0,0,0), 1)`,
`b = Sphere((1,0,0), 2)`, `c = Sphere((0,1,0), 3)`, the right-nested
product `a*(b*c)` does not serialize as a single `intersection` block with
the three children `a`, `b`, `c`: `Object.__mul__` wraps the plain object
`a` with the already-built `Intersection(b, c)`, producing a nested block. -/
theorem fdray_C1_counterexample :
    strNode zToStr (Obj.mul csA (Obj.mul csB csC))
      ≠ strNode zToStr (Node.intersection (.obj csA (.obj csB (.obj csC .nil)))) := by
  decide

/-- C1, amended: only left-nested repetition flattens, and only when the
left operand is not already a combinator of the operator's kind. For all
nodes `a`, `b`, `c`: if `a` is not an `Intersection` then `(a*b)*c` is the
single `Intersection` with children `a`, `b`, `c` in left-to-right order
(hence so is its serialization), while `a*(b*c)` is the `Intersection`
with the two children `a` and `b*c`; the same holds for `+` with `Union`
(requiring `a` not to be any CSG combinator, since `Csg.__add__` overrides
`+` for all four kinds), for `-` with `Difference` (`a` not a
`Difference`), and for `|` with `Merge` (`a` not a `Merge`). -/
theorem fdray_C1_flattening {α : Type} [CommRing α] (toStr : α → String)
    (a b c : Node α) :
    (isIntersection a = false →
      Obj.mul (Obj.mul a b) c = .intersection (.obj a (.obj b (.obj c .nil)))
      ∧ strNode toStr (Obj.mul (Obj.mul a b) c)
          = strNode toStr (Node.intersection (.obj a (.obj b (.obj c .nil))))
      ∧ Obj.mul a (Obj.mul b c)
          = .intersection (.obj a (.obj (Obj.mul b c) .nil)))
    ∧ (isCsg a = false →
      Obj.add (Obj.add a b) c = .union (.obj a (.obj b (.obj c .nil)))
      ∧ Obj.add a (Obj.add b c) = .union (.obj a (.obj (Obj.add b c) .nil)))
    ∧ (isDifference a = false →
      Obj.sub (Obj.sub a b) c = .difference (.obj a (.obj b (.obj c .nil)))
      ∧ Obj.sub a (Obj.sub b c) = .difference (.obj a (.obj (Obj.sub b c) .nil)))
    ∧ (isMerge a = false →
      Obj.orOp (Obj.orOp a b) c = .merge (.obj a (.obj b (.obj c .nil)))
      ∧ Obj.orOp a (Obj.orOp b c) = .merge (.obj a (.obj (Obj.orOp b c) .nil))) := by
  cases a <;>
    simp [Obj.mul, Obj.add, Obj.sub, Obj.orOp, isIntersection, isCsg,
      isDifference, isMerge, Attrs.append]

/-- C1, witness: the amended flattening theorem applied to the concrete
spheres `csA`, `csB`, `csC`. -/
theorem fdray_C1_flattening_witness :
    isIntersection csA = false
    ∧ Obj.mul (Obj.mul csA csB) csC
        = .intersection (.obj csA (.obj csB (.obj csC .nil))) :=
  ⟨by decide, ((fdray_C1_flattening zToStr csA csB csC).1 (by decide)).1⟩

/-- C2, counterexample: with `a = Intersection(Sphere(...), Sphere(...))`
(a CSG combinator of a different kind than `Union`) and `b` a sphere,
`a + b` is not `Union(a, b)`: `Csg.__add__` extends the existing
`Intersection` with `b` as a new child, and its serialization differs from
that of `Union(a, b)`. -/
theorem fdray_C2_counterexample :
    Obj.add (Node.intersection (.obj csA (.obj csB .nil))) csC
      = .intersection (.obj csA (.obj csB (.obj csC .nil)))
    ∧ strNode zToStr (Obj.add (Node.intersection (.obj csA (.obj csB .nil))) csC)
        ≠ strNode zToStr
            (Node.union
              (.obj (Node.intersection (.obj csA (.obj csB .nil))) (.obj csC .nil))) := by
  constructor
  · rfl
  · decide

/-- C2, amended: `a + b` returns `Union(a, b)` exactly when `a` is not a
CSG combinator; when `a` is a CSG combinator of any kind (`Union`,
`Intersection`, `Difference` or `Merge`), `a + b` instead extends that
combinator by appending `b` to its children — it never wraps a non-`Union`
CSG result in a new `Union`. -/
theorem fdray_C2_add {α : Type} (a b : Node α) :
    (isCsg a = false → Obj.add a b = .union (.obj a (.obj b .nil)))
    ∧ (∀ xs, a = .union xs → Obj.add a b = .union (xs.append (.obj b .nil)))
    ∧ (∀ xs, a = .intersection xs →
        Obj.add a b = .intersection (xs.append (.obj b .nil)))
    ∧ (∀ xs, a = .difference xs →
        Obj.add a b = .difference (xs.append (.obj b .nil)))
    ∧ (∀ xs, a = .merge xs → Obj.add a b = .merge (xs.append (.obj b .nil))) := by
  cases a <;> simp [Obj.add, isCsg]

/-- C2, witness: the amended `+` theorem applied to concrete nodes — a
plain sphere on the left yields `Union`, an `Intersection` on the left is
extended. -/
theorem fdray_C2_add_witness :
    isCsg csA = false ∧ Obj.add csA csB = .union (.obj csA (.obj csB .nil)) :=
  ⟨by decide, (fdray_C2_add csA csB).1 (by decide)⟩

namespace Obj

theorem lastOf_cons {β : Type} (a b : β) (l : List β) :
    lastOf a (b :: l) = lastOf b l := rfl

theorem getLastQ_eq_lastOf {β : Type} (a : β) (l : List β) :
    (a :: l).getLast? = some (lastOf a l) := by
  induction l generalizing a with
  | nil => rfl
  | cons b t ih => rw [List.getLast?_cons_cons, lastOf_cons, ih]

theorem lastTwo_snd {β : Type} (a b : β) (l : List β) :
    (lastTwo a b l).2 = lastOf b l := by
  induction l generalizing a b with
  | nil => rfl
  | cons c t ih => simpa [lastTwo, lastOf] using ih b c

theorem lastTwo_fst {β : Type} (a b : β) (l : List β) :
    (lastTwo a b l).1 = lastOf a (b :: l).dropLast := by
  induction l generalizing a b with
  | nil => rfl
  | cons c t ih => simpa [lastTwo, lastOf] using ih b c

theorem getLastD_eq_lastOf {β : Type} (a d : β) (l : List β) :
    (a :: l).getLastD d = lastOf a l := by
  induction l generalizing a with
  | nil => rfl
  | cons b t ih => simpa [lastOf] using ih b

end Obj

/-- C4: `SphereSweep.__str__` applies its fallback rules in the fixed
source order, given a per-point radius of matching length. Zero centers
render as `""`; exactly one center renders the `Sphere` of that center
with the first radius; `b_spline`/`cubic_spline` with fewer than 4 centers
render identically to `linear_spline` over the same centers and radius;
otherwise the output is `"<kind>, N"` followed by the comma-joined
`(center, radius)` pairs and then the attribute fragments, space-joined
inside `sphere_sweep { … }`. -/
theorem fdray_C4_fallback {α : Type} [CommRing α] (toStr : α → String)
    (kind : SplineKind) (centers : List (Pt α)) (radius : Radius α)
    (attrFrags : List String) (h : radiusOk radius centers) :
    (centers = [] → sphereSweepStrCore toStr kind centers radius attrFrags = some "")
    ∧ (∀ c, centers = [c] →
        sphereSweepStrCore toStr kind centers radius attrFrags
          = some (sphereStrCore toStr c (radiusFirst radius) attrFrags))
    ∧ ((kind = .bSpline ∨ kind = .cubicSpline) → centers.length < 4 →
        sphereSweepStrCore toStr kind centers radius attrFrags
          = sphereSweepStrCore toStr .linearSpline centers radius attrFrags)
    ∧ (2 ≤ centers.length → (kind = .linearSpline ∨ 4 ≤ centers.length) →
        sphereSweepStrCore toStr kind centers radius attrFrags
          = some (wrapName "sphere_sweep"
              (String.intercalate " "
                ((kindStr kind ++ ", " ++ toString centers.length)
                  :: pairsLine toStr centers radius :: attrFrags)))) := by
  refine ⟨?_, ?_, ?_, ?_⟩
  · rintro rfl
    rw [sphereSweepStrCore]
  · rintro c rfl
    cases radius with
    | const r =>
      rw [sphereSweepStrCore]
      rfl
    | perPoint rs =>
      obtain ⟨r, rfl⟩ := List.length_eq_one.mp (by simpa [radiusOk] using h)
      rw [sphereSweepStrCore]
      rfl
  · intro hk hlen
    rcases centers with _ | ⟨c0, _ | ⟨c1, rest⟩⟩
    · rw [sphereSweepStrCore, sphereSweepStrCore]
    · cases radius with
      | const r => rw [sphereSweepStrCore, sphereSweepStrCore]
      | perPoint rs => cases rs <;> rw [sphereSweepStrCore, sphereSweepStrCore]
    · rw [sphereSweepStrCore]
      · simp only [List.length_cons] at hlen ⊢
        rw [dif_pos ⟨hk, by omega⟩]
      · simp
      · simp
  · intro h2 hk
    rcases centers with _ | ⟨c0, _ | ⟨c1, rest⟩⟩
    · simp at h2
    · simp at h2
    · rw [sphereSweepStrCore]
      · have hcond : ¬((kind = SplineKind.bSpline ∨ kind = SplineKind.cubicSpline)
            ∧ (c0 :: c1 :: rest).length < 4) := by
          rcases hk with rfl | hk
          · rintro ⟨h1 | h1, -⟩ <;> exact SplineKind.noConfusion h1
          · rintro ⟨-, hlt⟩
            simp only [List.length_cons] at hk hlt
            omega
        rw [dif_neg hcond]
        rfl
      · simp
      · simp

/-- C4, witness: the fallback theorem at concrete inputs; in particular a
3-point `cubic_spline` sweep renders identically to the 3-point
`linear_spline` sweep. -/
theorem fdray_C4_fallback_witness :
    radiusOk (Radius.const (1 : ℤ)) [(0, 0, 0), (1, 0, 0), (0, 1, 0)]
    ∧ sphereSweepStrCore zToStr .cubicSpline
        [(0, 0, 0), (1, 0, 0), (0, 1, 0)] (.const 1) []
      = sphereSweepStrCore zToStr .linearSpline
        [(0, 0, 0), (1, 0, 0), (0, 1, 0)] (.const 1) [] :=
  ⟨trivial,
    (fdray_C4_fallback zToStr .cubicSpline
        [(0, 0, 0), (1, 0, 0), (0, 1, 0)] (.const 1) [] trivial).2.2.1
      (Or.inr rfl) (by decide)⟩

/-- C5: `Curve.__str__` with at least two centers delegates to a
`cubic_spline` sweep over exactly `length + 2` control points — the ghost
point `2·p0 − p1` prepended, the input centers unmodified in order, and
the ghost point `2·p_last − p_secondlast` appended — replicating the first
and last radius values when the radius is a per-point sequence; with fewer
than two centers it renders as the corresponding `Polyline`. -/
theorem fdray_C5_curve {α : Type} [CommRing α] (toStr : α → String)
    (centers : List (Pt α)) (radius : Radius α) (attrFrags : List String)
    (h : radiusOk radius centers) :
    (∀ c0 c1 rest, centers = c0 :: c1 :: rest →
      reflectPoint c1 c0
          = (2 * c0.1 - c1.1, 2 * c0.2.1 - c1.2.1, 2 * c0.2.2 - c1.2.2)
      ∧ ∃ psecond plast,
          centers.dropLast.getLast? = some psecond
          ∧ centers.getLast? = some plast
          ∧ curveStrCore toStr centers radius attrFrags
              = sphereSweepStrCore toStr .cubicSpline
                  (reflectPoint c1 c0 :: centers ++ [reflectPoint psecond plast])
                  (radiusExtend radius) attrFrags
          ∧ (reflectPoint c1 c0 :: centers
              ++ [reflectPoint psecond plast]).length = centers.length + 2)
    ∧ (centers.length < 2 →
        curveStrCore toStr centers radius attrFrags
          = polylineStrCore toStr centers radius attrFrags) := by
  constructor
  · rintro c0 c1 rest rfl
    refine ⟨rfl, lastOf c0 (c1 :: rest).dropLast, lastOf c1 rest, ?_, ?_, ?_, by simp⟩
    · rcases rest with _ | ⟨c2, rest'⟩
      · simp [lastOf]
      · rw [show (c0 :: c1 :: c2 :: rest').dropLast
            = c0 :: (c1 :: c2 :: rest').dropLast by simp,
          getLastQ_eq_lastOf]
    · rw [getLastQ_eq_lastOf, lastOf_cons]
    · show curveStrCore toStr (c0 :: c1 :: rest) radius attrFrags = _
      cases radius with
      | const r =>
        show sphereSweepStrCore toStr .cubicSpline
            (reflectPoint c1 c0 :: (c0 :: c1 :: rest)
              ++ [reflectPoint (lastTwo c0 c1 rest).1 (lastTwo c0 c1 rest).2])
            (.const r) attrFrags = _
        rw [lastTwo_fst, lastTwo_snd]
        rfl
      | perPoint rs =>
        obtain ⟨r, rs', rfl⟩ : ∃ r rs', rs = r :: rs' := by
          cases rs with
          | nil => simp [radiusOk] at h
          | cons r rs' => exact ⟨r, rs', rfl⟩
        show sphereSweepStrCore toStr .cubicSpline
            (reflectPoint c1 c0 :: (c0 :: c1 :: rest)
              ++ [reflectPoint (lastTwo c0 c1 rest).1 (lastTwo c0 c1 rest).2])
            (.perPoint (r :: (r :: rs') ++ [lastOf r rs'])) attrFrags = _
        rw [lastTwo_fst, lastTwo_snd]
        simp only [radiusExtend, List.headD]
        rw [getLastD_eq_lastOf]
  · intro hlen
    match centers, hlen with
    | [], _ => rfl
    | [c], _ => rfl

/-- C5, witness: the curve theorem applied to the three concrete centers
`(0,0,0)`, `(1,0,0)`, `(0,1,0)` with constant radius `1`. -/
theorem fdray_C5_curve_witness :
    radiusOk (Radius.const (1 : ℤ)) [(0, 0, 0), (1, 0, 0), (0, 1, 0)]
    ∧ (reflectPoint ((1 : ℤ), (0 : ℤ), (0 : ℤ)) ((0 : ℤ), (0 : ℤ), (0 : ℤ))
          = (2 * 0 - 1, 2 * 0 - 0, 2 * 0 - 0)
      ∧ ∃ psecond plast,
          ([((0 : ℤ), (0 : ℤ), (0 : ℤ)), (1, 0, 0), (0, 1, 0)]
              : List (Pt ℤ)).dropLast.getLast? = some psecond
          ∧ ([((0 : ℤ), (0 : ℤ), (0 : ℤ)), (1, 0, 0), (0, 1, 0)]
              : List (Pt ℤ)).getLast? = some plast
          ∧ curveStrCore zToStr [(0, 0, 0), (1, 0, 0), (0, 1, 0)] (.const 1) []
              = sphereSweepStrCore zToStr .cubicSpline
                  (reflectPoint (1, 0, 0) (0, 0, 0)
                    :: [(0, 0, 0), (1, 0, 0), (0, 1, 0)]
                    ++ [reflectPoint psecond plast])
                  (radiusExtend (.const 1)) []
          ∧ (reflectPoint ((1 : ℤ), (0 : ℤ), (0 : ℤ)) (0, 0, 0)
              :: [(0, 0, 0), (1, 0, 0), (0, 1, 0)]
              ++ [reflectPoint psecond plast]).length
              = ([((0 : ℤ), (0 : ℤ), (0 : ℤ)), (1, 0, 0), (0, 1, 0)]
                  : List (Pt ℤ)).length + 2) :=
  ⟨trivial,
    (fdray_C5_curve zToStr [(0, 0, 0), (1, 0, 0), (0, 1, 0)] (.const 1) []
        trivial).1 (0, 0, 0) (1, 0, 0) [(0, 1, 0)] rfl⟩

namespace Vec

/-! ### Vector algebra over ℝ (`src/fdray/vector.py`) and the camera
(`src/fdray/camera.py`), read exactly in real arithmetic. -/

/-- A 3-component real vector (`Vector`). -/
@[ext]
structure RVec where
  x : ℝ
  y : ℝ
  z : ℝ

noncomputable section

/-- `Vector.__add__`. -/
def vadd (a b : RVec) : RVec := ⟨a.x + b.x, a.y + b.y, a.z + b.z⟩

/-- `Vector.__mul__` by a scalar. -/
def vmul (v : RVec) (c : ℝ) : RVec := ⟨v.x * c, v.y * c, v.z * c⟩

/-- `Vector.__truediv__` by a scalar. -/
def vdiv (v : RVec) (c : ℝ) : RVec := ⟨v.x / c, v.y / c, v.z / c⟩

/-- `Vector.dot`. -/
def dot (a b : RVec) : ℝ := a.x * b.x + a.y * b.y + a.z * b.z

/-- `Vector.cross`. -/
def cross (a b : RVec) : RVec :=
  ⟨a.y * b.z - a.z * b.y, a.z * b.x - a.x * b.z, a.x * b.y - a.y * b.x⟩

/-- `Vector.norm`: `sqrt(x**2 + y**2 + z**2)`. -/
def norm (v : RVec) : ℝ := Real.sqrt (v.x ^ 2 + v.y ^ 2 + v.z ^ 2)

/-- `Vector.normalize`: divide each component by the norm; in Python the
division raises `ZeroDivisionError` exactly when the norm is `0.0`,
modelled as `Except.error`. -/
def normalizeE (v : RVec) : Except Unit RVec :=
  if norm v = 0 then .error ()
  else .ok ⟨v.x / norm v, v.y / norm v, v.z / norm v⟩

/-- Total normalization used where the axis is known to be nonzero (real
division by zero is junk `0`, never reached under that hypothesis). -/
def normalizeT (v : RVec) : RVec := ⟨v.x / norm v, v.y / norm v, v.z / norm v⟩

/-- `Vector.rotate` (Rodrigues): the axis is normalized internally, so the
call raises exactly when the axis has zero norm. -/
def rotateE (v axis : RVec) (θ : ℝ) : Except Unit RVec :=
  match normalizeE axis with
  | .error e => .error e
  | .ok a =>
    .ok (vadd (vadd (vmul v (Real.cos θ)) (vmul (cross a v) (Real.sin θ)))
      (vmul (vmul a (dot a v)) (1 - Real.cos θ)))

/-- `Vector.rotate` with the internal normalization written totally. -/
def rotateT (v axis : RVec) (θ : ℝ) : RVec :=
  vadd (vadd (vmul v (Real.cos θ)) (vmul (cross (normalizeT axis) v) (Real.sin θ)))
    (vmul (vmul (normalizeT axis) (dot (normalizeT axis) v)) (1 - Real.cos θ))

/-- On a nonzero axis, the raising and the total rotation agree. -/
theorem rotateE_eq_rotateT (v axis : RVec) (θ : ℝ) (h : norm axis ≠ 0) :
    rotateE v axis θ = .ok (rotateT v axis θ) := by
  rw [rotateE, normalizeE, if_neg h]
  rfl

/-- `Vector.from_spherical`. -/
def fromSpherical (φ θ : ℝ) : RVec :=
  ⟨Real.cos θ * Real.cos φ, Real.cos θ * Real.sin φ, Real.sin θ⟩

/-- Camera parameters (`Camera`): longitude, latitude and tilt in degrees,
distance, view scale and aspect ratio. -/
structure Camera where
  longitude : ℝ
  latitude : ℝ
  tilt : ℝ
  distance : ℝ
  viewScale : ℝ
  aspect : ℝ

/-- `math.radians`. -/
def radiansOf (d : ℝ) : ℝ := d * Real.pi / 180

/-- `Camera.phi` (longitude in radians). -/
def camPhi (c : Camera) : ℝ := radiansOf c.longitude

/-- `Camera.theta` (latitude in radians). -/
def camTheta (c : Camera) : ℝ := radiansOf c.latitude

/-- `Camera.z`. -/
def camZ (c : Camera) : RVec := fromSpherical (camPhi c) (camTheta c)

/-- `Camera.x`: `Vector(-sin(phi), cos(phi), 0).rotate(z, radians(tilt))`. -/
def camX (c : Camera) : RVec :=
  rotateT ⟨-Real.sin (camPhi c), Real.cos (camPhi c), 0⟩ (camZ c)
    (radiansOf c.tilt)

/-- `Camera.y = z × x`. -/
def camY (c : Camera) : RVec := cross (camZ c) (camX c)

/-- `Camera.direction = z * distance`. -/
def camDirection (c : Camera) : RVec := vmul (camZ c) c.distance

/-- `Camera.right = -2 * x * sqrt(aspect_ratio) * view_scale`. -/
def camRight (c : Camera) : RVec :=
  vmul (vmul (vmul (camX c) (-2)) (Real.sqrt c.aspect)) c.viewScale

/-- `Camera.up = 2 * y / sqrt(aspect_ratio) * view_scale`. -/
def camUp (c : Camera) : RVec :=
  vmul (vdiv (vmul (camY c) 2) (Real.sqrt c.aspect)) c.viewScale

/-- `Camera.sky = y`. -/
def camSky (c : Camera) : RVec := camY c

theorem dot_vmul_left (u w : RVec) (a : ℝ) : dot (vmul u a) w = a * dot u w := by
  simp only [dot, vmul]
  ring

theorem dot_vmul_right (u w : RVec) (a : ℝ) : dot u (vmul w a) = a * dot u w := by
  simp only [dot, vmul]
  ring

theorem dot_vdiv_right (u w : RVec) (a : ℝ) : dot u (vdiv w a) = dot u w / a := by
  simp only [dot, vdiv]
  ring

theorem dot_cross_self (u w : RVec) : dot u (cross u w) = 0 := by
  simp only [dot, cross]
  ring

/-- The spherical view direction is a unit vector. -/
theorem norm_camZ (c : Camera) : norm (camZ c) = 1 := by
  have h1 := Real.sin_sq_add_cos_sq (camTheta c)
  have h2 := Real.sin_sq_add_cos_sq (camPhi c)
  have key : (Real.cos (camTheta c) * Real.cos (camPhi c)) ^ 2
      + (Real.cos (camTheta c) * Real.sin (camPhi c)) ^ 2
      + Real.sin (camTheta c) ^ 2 = 1 := by nlinarith [h1, h2]
  simp only [norm, camZ, fromSpherical]
  rw [key, Real.sqrt_one]

/-- Normalizing the unit view direction is the identity. -/
theorem normalizeT_camZ (c : Camera) : normalizeT (camZ c) = camZ c := by
  ext <;> simp [normalizeT, norm_camZ]

/-- The derived right-axis is orthogonal to the view direction. -/
theorem dot_camZ_camX (c : Camera) : dot (camZ c) (camX c) = 0 := by
  rw [camX, rotateT, normalizeT_camZ]
  simp only [camZ, fromSpherical, dot, cross, vadd, vmul]
  ring

/-- C7: for every camera — any longitude, latitude and tilt in degrees,
any distance, view scale and aspect ratio — the derived vectors satisfy
`direction · right = 0` and `direction · up = 0` exactly in real
arithmetic. -/
theorem fdray_C7_orthogonal (c : Camera) :
    dot (camDirection c) (camRight c) = 0
    ∧ dot (camDirection c) (camUp c) = 0 := by
  have hzx : dot (camZ c) (camX c) = 0 := dot_camZ_camX c
  have hzy : dot (camZ c) (camY c) = 0 := dot_cross_self (camZ c) (camX c)
  constructor
  · rw [camDirection, camRight, dot_vmul_left, dot_vmul_right, dot_vmul_right,
      dot_vmul_right, hzx]
    ring
  · rw [camDirection, camUp, dot_vmul_left, dot_vmul_right, dot_vdiv_right,
      dot_vmul_right, hzy]
    ring

/-- The norm vanishes exactly on the zero vector. -/
theorem norm_eq_zero_iff (v : RVec) : norm v = 0 ↔ v = ⟨0, 0, 0⟩ := by
  constructor
  · intro h
    rw [norm, Real.sqrt_eq_zero (by positivity)] at h
    have hx : v.x = 0 := by nlinarith [sq_nonneg v.x, sq_nonneg v.y, sq_nonneg v.z]
    have hy : v.y = 0 := by nlinarith [sq_nonneg v.x, sq_nonneg v.y, sq_nonneg v.z]
    have hz : v.z = 0 := by nlinarith [sq_nonneg v.x, sq_nonneg v.y, sq_nonneg v.z]
    ext <;> assumption
  · rintro rfl
    simp [norm]

/-- C10: `Vector.normalize` succeeds exactly on vectors of nonzero norm,
the norm vanishes exactly on the zero vector (on which `normalize` raises
a division-by-zero error), and `Vector.rotate` — which normalizes its axis
internally — raises exactly when the supplied rotation axis has zero
norm. -/
theorem fdray_C10_normalize (v u : RVec) (θ : ℝ) :
    ((normalizeE v).isOk = true ↔ norm v ≠ 0)
    ∧ (norm v = 0 ↔ v = ⟨0, 0, 0⟩)
    ∧ ((rotateE u v θ).isOk = true ↔ norm v ≠ 0) := by
  refine ⟨?_, norm_eq_zero_iff v, ?_⟩
  · rw [normalizeE]
    split_ifs with h <;> simp [h, Except.isOk, Except.toBool]
  · rw [rotateE, normalizeE]
    split_ifs with h <;> simp [h, Except.isOk, Except.toBool]

end

end Vec

namespace Desc

/-! ### The scoped attribute override (`Descriptor.set`, `src/fdray/core.py`)

A dataclass record is modelled extensionally as a function from field
names to values. `Descriptor.set(**kwargs)` saves the current values of
the overridden fields, assigns the new values, runs the body, and in a
`finally` block writes the saved values back — so restoration happens on
both the normal and the raising exit path. The body is an arbitrary state
transformer returning a normal result or a raised exception
(`Except.error`); the saved-value write-back is applied to whatever state
the body left behind, exactly as `setattr` in the `finally` clause is. -/

variable {F V E R : Type} [DecidableEq F]

/-- `setattr(self, name, value)` on an extensional record. -/
def updateFn (s : F → V) (n : F) (v : V) : F → V :=
  fun m => if m = n then v else s m

/-- Sequentially assign the pairs of `ov` (`for name, value in kwargs.items()`). -/
def setMany (s : F → V) (ov : List (F × V)) : F → V :=
  ov.foldl (fun t p => updateFn t p.1 p.2) s

/-- `Descriptor.set`: save `[getattr(self, name) for name in kwargs]`,
assign the overrides, run the body, and restore the saved values on every
exit path (the `finally` clause), returning the final record state
together with the body's outcome. -/
def descriptorSet (s0 : F → V) (ov : List (F × V))
    (body : (F → V) → (F → V) × Except E R) : (F → V) × Except E R :=
  let saved := ov.map (fun p => (p.1, s0 p.1))
  let s1 := setMany s0 ov
  let br := body s1
  (setMany br.1 saved, br.2)

theorem setMany_not_mem (s : F → V) (l : List (F × V)) (n : F)
    (h : n ∉ l.map Prod.fst) : setMany s l n = s n := by
  induction l generalizing s with
  | nil => rfl
  | cons p t ih =>
    simp only [List.map_cons, List.mem_cons, not_or] at h
    rw [setMany, List.foldl_cons]
    rw [show List.foldl (fun t p => updateFn t p.1 p.2) (updateFn s p.1 p.2) t
        = setMany (updateFn s p.1 p.2) t from rfl, ih _ h.2, updateFn, if_neg h.1]

theorem setMany_saved (s0 s : F → V) (l : List (F × V))
    (h : ∀ p ∈ l, p.2 = s0 p.1) (n : F) :
    setMany s l n = if n ∈ l.map Prod.fst then s0 n else s n := by
  induction l generalizing s with
  | nil => simp [setMany]
  | cons p t ih =>
    rw [setMany, List.foldl_cons]
    rw [show List.foldl (fun t p => updateFn t p.1 p.2) (updateFn s p.1 p.2) t
        = setMany (updateFn s p.1 p.2) t from rfl]
    rw [ih _ (fun q hq => h q (List.mem_cons_of_mem p hq))]
    by_cases hmem : n ∈ t.map Prod.fst
    · simp [hmem]
    · have hval : p.2 = s0 p.1 := h p (List.mem_cons_self p t)
      by_cases hn : n = p.1
      · subst hn
        simp [hmem, updateFn, hval]
      · simp [hmem, updateFn, hn]

/-- C9: the scoped override restores every overridden field to its
pre-override value on both exit paths (the final state is computed the
same way whether the body returned normally or raised); if the body does
not itself mutate the record — as pure stringification does in
`Scene.to_str` — every field of the record equals its value from before
the override; fields outside the override set are exactly as the body
left them, and the body's outcome passes through unchanged. -/
theorem fdray_C9_scoped_restore (s0 : F → V) (ov : List (F × V))
    (body : (F → V) → (F → V) × Except E R) :
    (∀ n, n ∈ ov.map Prod.fst → (descriptorSet s0 ov body).1 n = s0 n)
    ∧ ((∀ s, (body s).1 = s) →
        ∀ n, (descriptorSet s0 ov body).1 n = s0 n)
    ∧ (∀ n, n ∉ ov.map Prod.fst →
        (descriptorSet s0 ov body).1 n = (body (setMany s0 ov)).1 n)
    ∧ (descriptorSet s0 ov body).2 = (body (setMany s0 ov)).2 := by
  have hsaved : ∀ p ∈ ov.map (fun p => (p.1, s0 p.1)), p.2 = s0 p.1 := by
    intro p hp
    obtain ⟨q, -, rfl⟩ := List.mem_map.mp hp
    rfl
  have hnames : (ov.map (fun p => (p.1, s0 p.1))).map Prod.fst = ov.map Prod.fst := by
    simp
  refine ⟨fun n hn => ?_, fun hbody n => ?_, fun n hn => ?_, rfl⟩
  · show setMany (body (setMany s0 ov)).1 _ n = s0 n
    rw [setMany_saved s0 _ _ hsaved, hnames, if_pos hn]
  · show setMany (body (setMany s0 ov)).1 _ n = s0 n
    rw [setMany_saved s0 _ _ hsaved, hnames, hbody]
    by_cases hn : n ∈ ov.map Prod.fst
    · simp [hn]
    · simp [hn, setMany_not_mem _ _ _ hn]
  · show setMany (body (setMany s0 ov)).1 _ n = _
    rw [setMany_saved s0 _ _ hsaved, hnames, if_neg hn]

/-- C9, witness: the restore theorem at a concrete record — a camera-like
record whose `"aspect_ratio"` field is overridden for the duration of a
read-only body that raises, after which the field again reads its
original value. -/
theorem fdray_C9_scoped_restore_witness :
    "aspect_ratio" ∈ ([("aspect_ratio", (3 : ℚ)/2)].map Prod.fst)
    ∧ (descriptorSet (fun _ : String => (4 : ℚ)/3) [("aspect_ratio", 3/2)]
        (fun s => (s, (Except.error () : Except Unit String)))).1 "aspect_ratio"
        = (4 : ℚ)/3 :=
  ⟨by simp,
    (fdray_C9_scoped_restore (fun _ : String => (4 : ℚ)/3)
        [("aspect_ratio", 3/2)]
        (fun s => (s, (Except.error () : Except Unit String)))).1
      "aspect_ratio" (by simp)⟩

end Desc

namespace Scene

/-! ### Scene serialization ordering (`Scene.__iter__`, `src/fdray/core/scene.py`)

`Scene.__iter__` first calls `Declare.clear()`, then yields the
`#version` line, the include lines, `str(global_settings)`, the optional
camera, the light sources, then — before yielding anything further —
materializes the body as `attrs = [str(attr) for attr in self.attrs]`
(stringification is what lazily registers `Declare` entries), then yields
`Declare.iter_strs()` and finally the already-materialized body strings.

The `Declare` registry itself lives in `core/base.py`, which is absent
from the sources; it is modelled from the spec (§4.4): a table of
`(generatedId, bodyText)` entries in registration order, cleared at the
start of each serialization, emitted as `#declare NAME = BODY;` lines.
Every stringification step is modelled as an arbitrary state transformer
over the registry, since registrations happen lazily during
stringification. -/

/-- Modelled from the spec: the `Declare` registry state — the ordered
`(generated id, first-seen body text)` entries (`core/base.py` is missing
from the sources; spec §4.4). -/
structure DeclReg where
  entries : List (String × String)

/-- Modelled from the spec: `Declare.clear()`. -/
def declClear (_ : DeclReg) : DeclReg := ⟨[]⟩

/-- Modelled from the spec: `Declare.iter_strs()`, one
`#declare NAME = BODY;` statement per registered entry. -/
def declIterStrs (r : DeclReg) : List String :=
  r.entries.map (fun p => "#declare " ++ p.1 ++ " = " ++ p.2 ++ ";")

/-- A stringification step: consumes the registry, produces the rendered
text and the possibly-extended registry. -/
abbrev RenderFn := DeclReg → String × DeclReg

/-- Render a list of items left to right, threading the registry
(`[str(attr) for attr in self.attrs]`). -/
def renderList (fs : List RenderFn) (r : DeclReg) : List String × DeclReg :=
  match fs with
  | [] => ([], r)
  | f :: rest =>
    let sr := f r
    let rest2 := renderList rest sr.2
    (sr.1 :: rest2.1, rest2.2)

/-- The optional camera segment: `if self.camera: yield str(self.camera)`. -/
def camSegment (camera : Option RenderFn) (r : DeclReg) : List String × DeclReg :=
  match camera with
  | some c =>
    let sc := c r
    ([sc.1], sc.2)
  | none => (([] : List String), r)

/-- `Scene.__iter__` as the list of yielded segments: clear the registry,
then `#version`, includes, global settings, optional camera, lights, then
materialize the body, emit the collected declarations, and finally the
body strings. -/
def sceneIter (version : String) (includes : List String)
    (globalSettings : RenderFn) (camera : Option RenderFn)
    (lights : List RenderFn) (attrs : List RenderFn) (reg0 : DeclReg) :
    List String :=
  let r0 := declClear reg0
  let gs := globalSettings r0
  let cam := camSegment camera gs.2
  let lgt := renderList lights cam.2
  let body := renderList attrs lgt.2
  ("#version " ++ version ++ ";") :: includes
    ++ [gs.1] ++ cam.1 ++ lgt.1 ++ declIterStrs body.2 ++ body.1

end Scene

open Scene

/-- C8: scene serialization emits, in this fixed order, the `#version`
line, the includes, the global settings, the camera segment (one line if a
camera was given, nothing otherwise), the light sources, all `#declare`
statements, and finally the body statements. The `#declare` statements
are computed from the registry state reached *after* the body text has
been fully materialized (starting from the registry cleared at the start
of the serialization), so every declaration registered while rendering the
body appears in the output before every body statement; and the output is
independent of whatever registry state was left over from a previous
serialization. -/
theorem fdray_C8_scene_order (version : String) (includes : List String)
    (globalSettings : RenderFn) (camera : Option RenderFn)
    (lights : List RenderFn) (attrs : List RenderFn) (reg0 reg0' : DeclReg) :
    sceneIter version includes globalSettings camera lights attrs reg0
      = sceneIter version includes globalSettings camera lights attrs reg0'
    ∧ ∀ gsOut camOut lightsOut bodyOut,
        gsOut = globalSettings ⟨[]⟩ →
        camOut = camSegment camera gsOut.2 →
        lightsOut = renderList lights camOut.2 →
        bodyOut = renderList attrs lightsOut.2 →
        sceneIter version includes globalSettings camera lights attrs reg0
          = ("#version " ++ version ++ ";") :: includes
            ++ [gsOut.1] ++ camOut.1 ++ lightsOut.1
            ++ declIterStrs bodyOut.2 ++ bodyOut.1 := by
  refine ⟨rfl, ?_⟩
  rintro gsOut camOut lightsOut bodyOut rfl rfl rfl rfl
  rfl

/-- A concrete global-settings segment that touches no declarations. -/
def gsW : RenderFn := fun r => ("global_settings { assumed_gamma 1 }", r)

/-- A concrete body attribute whose stringification registers one
declaration and renders as the bare id reference. -/
def attrW : RenderFn :=
  fun r => ("Decl1", ⟨r.entries ++ [("Decl1", "sphere { <0, 0, 0>, 1 }")]⟩)

/-- C8, witness: the ordering theorem applied to a concrete scene — no
camera, no lights, one body attribute registering one declaration, and a
stale registry entry left over from a previous serialization that the
clearing step discards. -/
theorem fdray_C8_scene_order_witness :
    sceneIter "3.7" [] gsW none [] [attrW] ⟨[("stale", "junk")]⟩
      = ("#version " ++ "3.7" ++ ";") :: []
        ++ [(gsW ⟨[]⟩).1]
        ++ (camSegment none (gsW ⟨[]⟩).2).1
        ++ (renderList [] (camSegment none (gsW ⟨[]⟩).2).2).1
        ++ declIterStrs
            (renderList [attrW]
              (renderList [] (camSegment none (gsW ⟨[]⟩).2).2).2).2
        ++ (renderList [attrW]
            (renderList [] (camSegment none (gsW ⟨[]⟩).2).2).2).1 :=
  (fdray_C8_scene_order "3.7" [] gsW none [] [attrW] ⟨[("stale", "junk")]⟩
      ⟨[]⟩).2
    (gsW ⟨[]⟩) (camSegment none (gsW ⟨[]⟩).2)
    (renderList [] (camSegment none (gsW ⟨[]⟩).2).2)
    (renderList [attrW] (renderList [] (camSegment none (gsW ⟨[]⟩).2).2).2)
    rfl rfl rfl rfl

deriving instance DecidableEq for Except

namespace ColorCore

/-! ### The keyword color model (`src/fdray/core/color.py`)

Channel values are modelled as exact rationals (`int(h, 16) / 255` is
exact). Python `str.islower`/`str.upper` are modelled on the ASCII
alphabet. -/

/-- The stored state of a `Color`: channels, optional symbolic name,
optional filter and transmit. The class stores no alpha field. -/
structure CColor where
  red : ℚ
  green : ℚ
  blue : ℚ
  name : Option String
  filter : Option ℚ
  transmit : Option ℚ
deriving DecidableEq

/-- The `ColorName` enumeration: member name to hex value. -/
def colorNameTable : List (String × String) := [
  ("ALICEBLUE", "#F0F8FF"),
  ("ANTIQUEWHITE", "#FAEBD7"),
  ("AQUA", "#00FFFF"),
  ("AQUAMARINE", "#7FFFD4"),
  ("AZURE", "#F0FFFF"),
  ("BEIGE", "#F5F5DC"),
  ("BISQUE", "#FFEBCD"),
  ("BLACK", "#000000"),
  ("BLANCHEDALMOND", "#FFEBCD"),
  ("BLUE", "#0000FF"),
  ("BLUEVIOLET", "#8A2BE2"),
  ("BROWN", "#A52A2A"),
  ("BURLYWOOD", "#DEB887"),
  ("CADETBLUE", "#5F9EA0"),
  ("CHARTREUSE", "#7FFF00"),
  ("CHOCOLATE", "#D2691E"),
  ("CORAL", "#FF7F50"),
  ("CORNFLOWERBLUE", "#6495ED"),
  ("CORNSILK", "#FFF8DC"),
  ("CRIMSON", "#DC143C"),
  ("CYAN", "#00FFFF"),
  ("DARKBLUE", "#00008B"),
  ("DARKCYAN", "#008B8B"),
  ("DARKGOLDENROD", "#B8860B"),
  ("DARKGRAY", "#A9A9A9"),
  ("DARKGREEN", "#006400"),
  ("DARKGREY", "#A9A9A9"),
  ("DARKKHAKI", "#BDB76B"),
  ("DARKMAGENTA", "#8B008B"),
  ("DARKOLIVEGREEN", "#556B2F"),
  ("DARKORANGE", "#FF8C00"),
  ("DARKORCHID", "#9932CC"),
  ("DARKRED", "#8B0000"),
  ("DARKSALMON", "#E9967A"),
  ("DARKSEAGREEN", "#8FBC8F"),
  ("DARKSLATEBLUE", "#483D8B"),
  ("DARKSLATEGRAY", "#2F4F4F"),
  ("DARKSLATEGREY", "#2F4F4F"),
  ("DARKTURQUOISE", "#00CED1"),
  ("DARKVIOLET", "#9400D3"),
  ("DEEPPINK", "#FF1493"),
  ("DEEPSKYBLUE", "#00BFFF"),
  ("DIMGRAY", "#696969"),
  ("DIMGREY", "#696969"),
  ("DODGERBLUE", "#1E90FF"),
  ("FIREBRICK", "#B22222"),
  ("FLORALWHITE", "#FFFAF0"),
  ("FORESTGREEN", "#228B22"),
  ("FUCHSIA", "#FF00FF"),
  ("GAINSBORO", "#DCDCDC"),
  ("GHOSTWHITE", "#F8F8FF"),
  ("GOLD", "#FFD700"),
  ("GOLDENROD", "#DAA520"),
  ("GRAY", "#808080"),
  ("GREEN", "#008000"),
  ("GREENYELLOW", "#ADFF2F"),
  ("GREY", "#808080"),
  ("HONEYDEW", "#F0FFF0"),
  ("HOTPINK", "#FF69B4"),
  ("INDIANRED", "#CD5C5C"),
  ("INDIGO", "#4B0082"),
  ("IVORY", "#FFFFF0"),
  ("KHAKI", "#F0E68C"),
  ("LAVENDER", "#E6E6FA"),
  ("LAVENDERBLUSH", "#FFF0F5"),
  ("LAWNGREEN", "#7CFC00"),
  ("LEMONCHIFFON", "#FFFACD"),
  ("LIGHTBLUE", "#ADD8E6"),
  ("LIGHTCORAL", "#F08080"),
  ("LIGHTCYAN", "#E0FFFF"),
  ("LIGHTGOLDENRODYELLOW", "#FAFAD2"),
  ("LIGHTGRAY", "#D3D3D3"),
  ("LIGHTGREEN", "#90EE90"),
  ("LIGHTGREY", "#D3D3D3"),
  ("LIGHTPINK", "#FFB6C1"),
  ("LIGHTSALMON", "#FFA07A"),
  ("LIGHTSEAGREEN", "#20B2AA"),
  ("LIGHTSKYBLUE", "#87CEFA"),
  ("LIGHTSLATEGRAY", "#778899"),
  ("LIGHTSLATEGREY", "#778899"),
  ("LIGHTSTEELBLUE", "#B0C4DE"),
  ("LIGHTYELLOW", "#FFFFE0"),
  ("LIME", "#00FF00"),
  ("LIMEGREEN", "#32CD32"),
  ("LINEN", "#FAF0E6"),
  ("MAGENTA", "#FF00FF"),
  ("MAROON", "#800000"),
  ("MEDIUMAQUAMARINE", "#66CDAA"),
  ("MEDIUMBLUE", "#0000CD"),
  ("MEDIUMORCHID", "#BA55D3"),
  ("MEDIUMPURPLE", "#9370DB"),
  ("MEDIUMSEAGREEN", "#3CB371"),
  ("MEDIUMSLATEBLUE", "#7B68EE"),
  ("MEDIUMSPRINGGREEN", "#00FA9A"),
  ("MEDIUMTURQUOISE", "#48D1CC"),
  ("MEDIUMVIOLETRED", "#C71585"),
  ("MIDNIGHTBLUE", "#191970"),
  ("MINTCREAM", "#F5FFFA"),
  ("MISTYROSE", "#FFE4E1"),
  ("MOCCASIN", "#FFE4B5"),
  ("NAVAJOWHITE", "#FFDEAD"),
  ("NAVY", "#000080"),
  ("OLDLACE", "#FDF5E6"),
  ("OLIVE", "#808000"),
  ("OLIVEDRAB", "#6B8E23"),
  ("ORANGE", "#FFA500"),
  ("ORANGERED", "#FF4500"),
  ("ORCHID", "#DA70D6"),
  ("PALEGOLDENROD", "#EEE8AA"),
  ("PALEGREEN", "#98FB98"),
  ("PALETURQUOISE", "#AFEEEE"),
  ("PALEVIOLETRED", "#DB7093"),
  ("PAPAYAWHIP", "#FFEFD5"),
  ("PEACHPUFF", "#FFDAB9"),
  ("PERU", "#CD853F"),
  ("PINK", "#FFC0CB"),
  ("PLUM", "#DDA0DD"),
  ("POWDERBLUE", "#B0E0E6"),
  ("PURPLE", "#800080"),
  ("REBECCAPURPLE", "#663399"),
  ("RED", "#FF0000"),
  ("ROSYBROWN", "#BC8F8F"),
  ("ROYALBLUE", "#4169E1"),
  ("SADDLEBROWN", "#8B4513"),
  ("SALMON", "#FA8072"),
  ("SANDYBROWN", "#F4A460"),
  ("SEAGREEN", "#2E8B57"),
  ("SEASHELL", "#FFF5EE"),
  ("SIENNA", "#A0522D"),
  ("SILVER", "#C0C0C0"),
  ("SKYBLUE", "#87CEEB"),
  ("SLATEBLUE", "#6A5ACD"),
  ("SLATEGRAY", "#708090"),
  ("SLATEGREY", "#708090"),
  ("SNOW", "#FFFAFA"),
  ("SPRINGGREEN", "#00FF7F"),
  ("STEELBLUE", "#4682B4"),
  ("TAN", "#D2B48C"),
  ("TEAL", "#008080"),
  ("THISTLE", "#D8BFD8"),
  ("TOMATO", "#FF6347"),
  ("TURQUOISE", "#40E0D0"),
  ("VIOLET", "#EE82EE"),
  ("WHEAT", "#F5DEB3"),
  ("WHITE", "#FFFFFF"),
  ("WHITESMOKE", "#F5F5F5"),
  ("YELLOW", "#FFFF00"),
  ("YELLOWGREEN", "#9ACD32")]

/-- Python `str.islower` on ASCII: at least one cased character and no
upper-case cased character. -/
def pyIsLower (s : String) : Bool :=
  s.data.any (fun c => c.isAlpha) && s.data.all (fun c => !c.isAlpha || c.isLower)

/-- Python `str.upper` on ASCII. -/
def pyUpper (s : String) : String := String.mk (s.data.map Char.toUpper)

/-- `color.rgb`: lower-case names are looked up in `ColorName`
(`getattr(ColorName, color.upper(), color)`); a string that does not start
with `#` or is shorter than 7 characters is returned unchanged; otherwise
the first six hex digits are parsed (`int` raising `ValueError` on bad
digits is `Except.error`). -/
def rgbCore (s : String) : Except Unit (String ⊕ (ℚ × ℚ × ℚ)) :=
  let s1 := if pyIsLower s then (colorNameTable.lookup (pyUpper s)).getD s else s
  match s1.data with
  | '#' :: a :: b :: c :: d :: e :: f :: _ =>
    match Fdray.int16two a b, Fdray.int16two c d, Fdray.int16two e f with
    | some r, some g, some bb =>
      .ok (.inr ((r : ℚ) / 255, (g : ℚ) / 255, (bb : ℚ) / 255))
    | _, _, _ => .error ()
  | _ => .ok (.inl s1)

/-- The `color` argument of `Color.__init__`: an existing color, a string,
a 3-tuple or a 4-tuple. -/
inductive CSpec where
  | ofColor (c : CColor)
  | ofStr (s : String)
  | ofTuple3 (r g b : ℚ)
  | ofTuple4 (r g b a : ℚ)

/-- Python `x or y` on an optional float: `x` unless it is `None` or
`0.0` (falsy), in which case `y` (used by `filter = filter or color.filter`). -/
def pyOrOpt (x y : Option ℚ) : Option ℚ :=
  match x with
  | none => y
  | some v => if v = 0 then y else some v

/-- The tail of `Color.__init__`: `if alpha is not None: transmit = 1 - alpha`,
then store the fields. No alpha is stored. -/
def finishColor (name : Option String) (rgb : ℚ × ℚ × ℚ)
    (alpha filter transmit : Option ℚ) : CColor :=
  let transmit2 :=
    match alpha with
    | some a => some (1 - a)
    | none => transmit
  ⟨rgb.1, rgb.2.1, rgb.2.2, name, filter, transmit2⟩

/-- `Color.__init__(color, alpha=None, *, filter=None, transmit=None)`.
For a 9-character `#`-string the local `alpha` variable is reassigned from
the trailing hex byte before the transmit conversion, and for a 4-tuple it
is reassigned from the fourth element — in both cases overwriting any
explicit `alpha` argument. -/
def coreColorInit (spec : CSpec) (alpha filter transmit : Option ℚ) :
    Except Unit CColor :=
  match spec with
  | .ofColor c =>
    .ok (finishColor c.name (c.red, c.green, c.blue) alpha
      (pyOrOpt filter c.filter) (pyOrOpt transmit c.transmit))
  | .ofStr s =>
    match s.data with
    | '#' :: c1 :: c2 :: c3 :: c4 :: c5 :: c6 :: c7 :: c8 :: [] =>
      match Fdray.int16two c7 c8 with
      | none => .error ()
      | some v =>
        match rgbCore (String.mk ['#', c1, c2, c3, c4, c5, c6]) with
        | .error e => .error e
        | .ok (.inl nm) =>
          .ok (finishColor (some nm) (0, 0, 0) (some ((v : ℚ) / 255)) filter transmit)
        | .ok (.inr rgbv) =>
          .ok (finishColor none rgbv (some ((v : ℚ) / 255)) filter transmit)
    | _ =>
      match rgbCore s with
      | .error e => .error e
      | .ok (.inl nm) => .ok (finishColor (some nm) (0, 0, 0) alpha filter transmit)
      | .ok (.inr rgbv) => .ok (finishColor none rgbv alpha filter transmit)
  | .ofTuple3 r g b => .ok (finishColor none (r, g, b) alpha filter transmit)
  | .ofTuple4 r g b a => .ok (finishColor none (r, g, b) (some a) filter transmit)

/-- `Color.__iter__` given a numeric formatter standing for `"{:.3g}"`:
a named color yields the name and optional `filter`/`transmit` tokens;
a numeric color yields one `rgb`/`rgbf`/`rgbt`/`rgbft` vector token. -/
def coreColorIter (tos : ℚ → String) (c : CColor) : List String :=
  match c.name with
  | some nm =>
    nm ::
      ((match c.filter with
        | some f => ["filter " ++ tos f]
        | none => [])
        ++ (match c.transmit with
          | some t => ["transmit " ++ tos t]
          | none => []))
  | none =>
    let rgbs := tos c.red ++ ", " ++ tos c.green ++ ", " ++ tos c.blue
    match c.filter, c.transmit with
    | some f, some t => ["rgbft <" ++ rgbs ++ ", " ++ tos f ++ ", " ++ tos t ++ ">"]
    | some f, none => ["rgbf <" ++ rgbs ++ ", " ++ tos f ++ ">"]
    | none, some t => ["rgbt <" ++ rgbs ++ ", " ++ tos t ++ ">"]
    | none, none => ["rgb <" ++ rgbs ++ ">"]

end ColorCore

open ColorCore

/-- C3: evaluation of `Color.__init__` at the inputs deciding the alpha
precedence. `Color("#0000FFFF", alpha=0.3)` stores `transmit = 1 - 255/255
= 0`: the hex alpha byte overwrites the explicit `alpha` argument, against
the documented precedence (explicit alpha first). Likewise
`Color((1, 0, 0, 0.5), alpha=0.3)` stores `transmit = 0.5` from the tuple.
When no competing source is present the claim's behavior holds:
`Color("blue", alpha=0.3)` stores `transmit = 0.7`, no alpha field exists
on the result, and it serializes as an `rgbt` vector carrying the 0.7
transmit component and no alpha token. -/
theorem fdray_C3_alpha_eval :
    coreColorInit (.ofStr "#0000FFFF") (some (3/10)) none none
      = .ok ⟨0, 0, 1, none, none, some 0⟩
    ∧ coreColorInit (.ofTuple4 1 0 0 (1/2)) (some (3/10)) none none
      = .ok ⟨1, 0, 0, none, none, some (1/2)⟩
    ∧ coreColorInit (.ofStr "blue") (some (3/10)) none none
      = .ok ⟨0, 0, 1, none, none, some (7/10)⟩
    ∧ ∀ tos : ℚ → String,
        coreColorIter tos ⟨0, 0, 1, none, none, some (7/10)⟩
          = ["rgbt <" ++ tos 0 ++ ", " ++ tos 0 ++ ", " ++ tos 1 ++ ", "
              ++ tos (7/10) ++ ">"] := by
  refine ⟨?_, ?_, ?_, fun tos => rfl⟩
  · have h1 : coreColorInit (.ofStr "#0000FFFF") (some (3/10)) none none
        = .ok (finishColor none
            (((0 : ℤ) : ℚ)/255, ((0 : ℤ) : ℚ)/255, ((255 : ℤ) : ℚ)/255)
            (some (((255 : ℤ) : ℚ)/255)) none none) := rfl
    rw [h1]
    simp only [finishColor, Except.ok.injEq, CColor.mk.injEq]
    norm_num
  · have h2 : coreColorInit (.ofTuple4 1 0 0 (1/2)) (some (3/10)) none none
        = .ok (finishColor none ((1 : ℚ), (0 : ℚ), (0 : ℚ)) (some (1/2)) none none) :=
      rfl
    rw [h2]
    simp only [finishColor, Except.ok.injEq, CColor.mk.injEq]
    norm_num
  · have h3 : coreColorInit (.ofStr "blue") (some (3/10)) none none
        = .ok (finishColor none
            (((0 : ℤ) : ℚ)/255, ((0 : ℤ) : ℚ)/255, ((255 : ℤ) : ℚ)/255)
            (some (3/10)) none none) := rfl
    rw [h3]
    simp only [finishColor, Except.ok.injEq, CColor.mk.injEq]
    norm_num

namespace ColorStrict

/-! ### The strict color model (`src/fdray/colors.py`)

This numeric variant validates every channel and the stored alpha into
`[0, 1]` at construction and raises `ValueError` on violation. Channel
values are exact rationals; tuple entries are modelled as rationals (the
`isinstance` check of `_validate` never fires on numeric entries). -/

/-- The stored state of the strict `Color`: channels and optional alpha. -/
structure SColor where
  red : ℚ
  green : ℚ
  blue : ℚ
  alpha : Option ℚ
deriving DecidableEq

/-- The `cnames` color table. -/
def cnamesTable : List (String × String) := [
  ("aliceblue", "#F0F8FF"),
  ("antiquewhite", "#FAEBD7"),
  ("aqua", "#00FFFF"),
  ("aquamarine", "#7FFFD4"),
  ("azure", "#F0FFFF"),
  ("beige", "#F5F5DC"),
  ("bisque", "#FFE4C4"),
  ("black", "#000000"),
  ("blanchedalmond", "#FFEBCD"),
  ("blue", "#0000FF"),
  ("blueviolet", "#8A2BE2"),
  ("brown", "#A52A2A"),
  ("burlywood", "#DEB887"),
  ("cadetblue", "#5F9EA0"),
  ("chartreuse", "#7FFF00"),
  ("chocolate", "#D2691E"),
  ("coral", "#FF7F50"),
  ("cornflowerblue", "#6495ED"),
  ("cornsilk", "#FFF8DC"),
  ("crimson", "#DC143C"),
  ("cyan", "#00FFFF"),
  ("darkblue", "#00008B"),
  ("darkcyan", "#008B8B"),
  ("darkgoldenrod", "#B8860B"),
  ("darkgray", "#A9A9A9"),
  ("darkgreen", "#006400"),
  ("darkgrey", "#A9A9A9"),
  ("darkkhaki", "#BDB76B"),
  ("darkmagenta", "#8B008B"),
  ("darkolivegreen", "#556B2F"),
  ("darkorange", "#FF8C00"),
  ("darkorchid", "#9932CC"),
  ("darkred", "#8B0000"),
  ("darksalmon", "#E9967A"),
  ("darkseagreen", "#8FBC8F"),
  ("darkslateblue", "#483D8B"),
  ("darkslategray", "#2F4F4F"),
  ("darkslategrey", "#2F4F4F"),
  ("darkturquoise", "#00CED1"),
  ("darkviolet", "#9400D3"),
  ("deeppink", "#FF1493"),
  ("deepskyblue", "#00BFFF"),
  ("dimgray", "#696969"),
  ("dimgrey", "#696969"),
  ("dodgerblue", "#1E90FF"),
  ("firebrick", "#B22222"),
  ("floralwhite", "#FFFAF0"),
  ("forestgreen", "#228B22"),
  ("fuchsia", "#FF00FF"),
  ("gainsboro", "#DCDCDC"),
  ("ghostwhite", "#F8F8FF"),
  ("gold", "#FFD700"),
  ("goldenrod", "#DAA520"),
  ("gray", "#808080"),
  ("green", "#008000"),
  ("greenyellow", "#ADFF2F"),
  ("grey", "#808080"),
  ("honeydew", "#F0FFF0"),
  ("hotpink", "#FF69B4"),
  ("indianred", "#CD5C5C"),
  ("indigo", "#4B0082"),
  ("ivory", "#FFFFF0"),
  ("khaki", "#F0E68C"),
  ("lavender", "#E6E6FA"),
  ("lavenderblush", "#FFF0F5"),
  ("lawngreen", "#7CFC00"),
  ("lemonchiffon", "#FFFACD"),
  ("lightblue", "#ADD8E6"),
  ("lightcoral", "#F08080"),
  ("lightcyan", "#E0FFFF"),
  ("lightgoldenrodyellow", "#FAFAD2"),
  ("lightgray", "#D3D3D3"),
  ("lightgreen", "#90EE90"),
  ("lightgrey", "#D3D3D3"),
  ("lightpink", "#FFB6C1"),
  ("lightsalmon", "#FFA07A"),
  ("lightseagreen", "#20B2AA"),
  ("lightskyblue", "#87CEFA"),
  ("lightslategray", "#778899"),
  ("lightslategrey", "#778899"),
  ("lightsteelblue", "#B0C4DE"),
  ("lightyellow", "#FFFFE0"),
  ("lime", "#00FF00"),
  ("limegreen", "#32CD32"),
  ("linen", "#FAF0E6"),
  ("magenta", "#FF00FF"),
  ("maroon", "#800000"),
  ("mediumaquamarine", "#66CDAA"),
  ("mediumblue", "#0000CD"),
  ("mediumorchid", "#BA55D3"),
  ("mediumpurple", "#9370DB"),
  ("mediumseagreen", "#3CB371"),
  ("mediumslateblue", "#7B68EE"),
  ("mediumspringgreen", "#00FA9A"),
  ("mediumturquoise", "#48D1CC"),
  ("mediumvioletred", "#C71585"),
  ("midnightblue", "#191970"),
  ("mintcream", "#F5FFFA"),
  ("mistyrose", "#FFE4E1"),
  ("moccasin", "#FFE4B5"),
  ("navajowhite", "#FFDEAD"),
  ("navy", "#000080"),
  ("oldlace", "#FDF5E6"),
  ("olive", "#808000"),
  ("olivedrab", "#6B8E23"),
  ("orange", "#FFA500"),
  ("orangered", "#FF4500"),
  ("orchid", "#DA70D6"),
  ("palegoldenrod", "#EEE8AA"),
  ("palegreen", "#98FB98"),
  ("paleturquoise", "#AFEEEE"),
  ("palevioletred", "#DB7093"),
  ("papayawhip", "#FFEFD5"),
  ("peachpuff", "#FFDAB9"),
  ("peru", "#CD853F"),
  ("pink", "#FFC0CB"),
  ("plum", "#DDA0DD"),
  ("powderblue", "#B0E0E6"),
  ("purple", "#800080"),
  ("rebeccapurple", "#663399"),
  ("red", "#FF0000"),
  ("rosybrown", "#BC8F8F"),
  ("royalblue", "#4169E1"),
  ("saddlebrown", "#8B4513"),
  ("salmon", "#FA8072"),
  ("sandybrown", "#F4A460"),
  ("seagreen", "#2E8B57"),
  ("seashell", "#FFF5EE"),
  ("sienna", "#A0522D"),
  ("silver", "#C0C0C0"),
  ("skyblue", "#87CEEB"),
  ("slateblue", "#6A5ACD"),
  ("slategray", "#708090"),
  ("slategrey", "#708090"),
  ("snow", "#FFFAFA"),
  ("springgreen", "#00FF7F"),
  ("steelblue", "#4682B4"),
  ("tan", "#D2B48C"),
  ("teal", "#008080"),
  ("thistle", "#D8BFD8"),
  ("tomato", "#FF6347"),
  ("turquoise", "#40E0D0"),
  ("violet", "#EE82EE"),
  ("wheat", "#F5DEB3"),
  ("white", "#FFFFFF"),
  ("whitesmoke", "#F5F5F5"),
  ("yellow", "#FFFF00"),
  ("yellowgreen", "#9ACD32")]

/-- The `color` argument: a string, or a tuple of arbitrary arity. -/
inductive SSpec where
  | ofStr (s : String)
  | ofTuple (xs : List ℚ)

/-- The parse core of `colors.rgb` after the `cnames` lookup:
a string of exactly `#` plus six characters has its three two-character
fields parsed by `int(_, 16)`; anything else raises. -/
def hexPairs (t : String) : Except Unit (ℚ × ℚ × ℚ) :=
  match t.data with
  | '#' :: a :: b :: c :: d :: e :: f :: [] =>
    match Fdray.int16two a b, Fdray.int16two c d, Fdray.int16two e f with
    | some r, some g, some bb =>
      .ok ((r : ℚ) / 255, (g : ℚ) / 255, (bb : ℚ) / 255)
    | _, _, _ => .error ()
  | _ => .error ()

/-- `colors.rgb`: `cnames.get(color, color)`, then the `#RRGGBB` check and
parse (`ValueError` on anything else). -/
def strictRgb (s : String) : Except Unit (ℚ × ℚ × ℚ) :=
  hexPairs ((cnamesTable.lookup s).getD s)

/-- `Color._validate`: every channel in `[0, 1]`, and the stored alpha in
`[0, 1]` when present; raises otherwise. -/
def strictValidate (r g b : ℚ) (alpha : Option ℚ) : Except Unit Unit :=
  if 0 ≤ r ∧ r ≤ 1 ∧ 0 ≤ g ∧ g ≤ 1 ∧ 0 ≤ b ∧ b ≤ 1 then
    match alpha with
    | none => .ok ()
    | some a => if 0 ≤ a ∧ a ≤ 1 then .ok () else .error ()
  else .error ()

/-- The tail of `colors.Color.__init__`: run `self._validate()` on the
assigned fields and return the constructed color, propagating the raise. -/
def afterValidate (r g b : ℚ) (alpha : Option ℚ) : Except Unit SColor :=
  match strictValidate r g b alpha with
  | .error e => .error e
  | .ok _ => .ok ⟨r, g, b, alpha⟩

/-- `colors.Color.__init__(color, alpha=None)`: a 9-character `#`-string
reassigns `self.alpha` from the trailing hex byte and strips it before the
`rgb` parse; a 3-tuple keeps the `alpha` argument; a 4-tuple reassigns
`self.alpha` from its fourth element; any other tuple arity raises; the
result is validated before returning. -/
def strictInit (spec : SSpec) (alpha : Option ℚ) : Except Unit SColor :=
  match spec with
  | .ofStr s =>
    match s.data with
    | '#' :: c1 :: c2 :: c3 :: c4 :: c5 :: c6 :: c7 :: c8 :: [] =>
      match Fdray.int16two c7 c8 with
      | none => .error ()
      | some v =>
        match strictRgb (String.mk ['#', c1, c2, c3, c4, c5, c6]) with
        | .error e => .error e
        | .ok (r, g, b) => afterValidate r g b (some ((v : ℚ) / 255))
    | _ =>
      match strictRgb s with
      | .error e => .error e
      | .ok (r, g, b) => afterValidate r g b alpha
  | .ofTuple xs =>
    match xs with
    | [r, g, b] => afterValidate r g b alpha
    | [r, g, b, a] => afterValidate r g b (some a)
    | _ => .error ()

/-- A hexadecimal digit, as the claim's "#RRGGBB/#RRGGBBAA hex code" reads. -/
def specIsHexDigit (c : Char) : Bool :=
  ('0'.toNat ≤ c.toNat ∧ c.toNat ≤ '9'.toNat)
  ∨ ('a'.toNat ≤ c.toNat ∧ c.toNat ≤ 'f'.toNat)
  ∨ ('A'.toNat ≤ c.toNat ∧ c.toNat ≤ 'F'.toNat)

/-- A `#RRGGBB` code in the claim's sense: `#` followed by six hex digits. -/
def strictHex7 (s : String) : Bool :=
  match s.data with
  | '#' :: rest => rest.length = 6 && rest.all specIsHexDigit
  | _ => false

/-- A `#RRGGBBAA` code in the claim's sense: `#` followed by eight hex
digits. -/
def strictHex9 (s : String) : Bool :=
  match s.data with
  | '#' :: rest => rest.length = 8 && rest.all specIsHexDigit
  | _ => false

/-- A known color name: a key of `cnames`. -/
def knownName (s : String) : Bool := (cnamesTable.lookup s).isSome

/-- The claim's validity condition on the explicit alpha argument. -/
def alphaOk : Option ℚ → Prop
  | none => True
  | some a => 0 ≤ a ∧ a ≤ 1

/-- A channel value in `[0, 1]`. -/
def inRange (x : ℚ) : Prop := 0 ≤ x ∧ x ≤ 1

/-- The claim's well-formedness condition, as stated: a string is a known
color name or a `#RRGGBB`/`#RRGGBBAA` hex code (with the effective alpha in
range — automatic for a parsed alpha byte); a tuple has arity 3 or 4 with
channels in `[0, 1]` and the effective alpha (the fourth element if arity
4) in `[0, 1]`. -/
def claimValid (spec : SSpec) (alpha : Option ℚ) : Prop :=
  match spec with
  | .ofStr s =>
    strictHex9 s = true
    ∨ ((knownName s = true ∨ strictHex7 s = true) ∧ alphaOk alpha)
  | .ofTuple xs =>
    match xs with
    | [r, g, b] => inRange r ∧ inRange g ∧ inRange b ∧ alphaOk alpha
    | [r, g, b, a] => inRange r ∧ inRange g ∧ inRange b ∧ inRange a
    | _ => False

/-- A 7-character channel code accepted by the implementation's parser:
`#` plus three two-character fields each accepted by Python `int(_, 16)`
with a nonnegative value (the value is then automatically at most 255). -/
def pyHex7Valid (s : String) : Bool :=
  match s.data with
  | '#' :: a :: b :: c :: d :: e :: f :: [] =>
    match Fdray.int16two a b, Fdray.int16two c d, Fdray.int16two e f with
    | some r, some g, some bb =>
      decide (0 ≤ r) && decide (0 ≤ g) && decide (0 ≤ bb)
    | _, _, _ => false
  | _ => false

/-- A 9-character code accepted by the implementation's parser: `#` plus
four accepted two-character fields with nonnegative values. -/
def pyHex9Valid (s : String) : Bool :=
  match s.data with
  | '#' :: c1 :: c2 :: c3 :: c4 :: c5 :: c6 :: c7 :: c8 :: [] =>
    match Fdray.int16two c1 c2, Fdray.int16two c3 c4, Fdray.int16two c5 c6,
        Fdray.int16two c7 c8 with
    | some r, some g, some b, some a =>
      decide (0 ≤ r) && decide (0 ≤ g) && decide (0 ≤ b) && decide (0 ≤ a)
    | _, _, _, _ => false
  | _ => false

/-- The amended well-formedness condition: as `claimValid`, but with hex
codes generalized to exactly the strings whose channel/alpha fields the
Python `int(_, 16)` parser accepts with nonnegative values (two hex
digits, or a single hex digit padded by whitespace or a `+` sign). -/
def amendValid (spec : SSpec) (alpha : Option ℚ) : Prop :=
  match spec with
  | .ofStr s =>
    pyHex9Valid s = true
    ∨ ((knownName s = true ∨ pyHex7Valid s = true) ∧ alphaOk alpha)
  | .ofTuple xs =>
    match xs with
    | [r, g, b] => inRange r ∧ inRange g ∧ inRange b ∧ alphaOk alpha
    | [r, g, b, a] => inRange r ∧ inRange g ∧ inRange b ∧ inRange a
    | _ => False

theorem afterValidate_isOk (r g b : ℚ) (al : Option ℚ) :
    (afterValidate r g b al).isOk = true
      ↔ (inRange r ∧ inRange g ∧ inRange b ∧ alphaOk al) := by
  rw [afterValidate, strictValidate.eq_def]
  by_cases hch : 0 ≤ r ∧ r ≤ 1 ∧ 0 ≤ g ∧ g ≤ 1 ∧ 0 ≤ b ∧ b ≤ 1
  · rw [if_pos hch]
    cases al with
    | none =>
      simp only [Except.isOk, Except.toBool, inRange, alphaOk]
      tauto
    | some a =>
      dsimp only
      by_cases ha : 0 ≤ a ∧ a ≤ 1
      · rw [if_pos ha]
        simp only [Except.isOk, Except.toBool, inRange, alphaOk]
        tauto
      · rw [if_neg ha]
        simp only [Except.isOk, Except.toBool, inRange, alphaOk]
        tauto
  · rw [if_neg hch]
    simp only [Except.isOk, Except.toBool, inRange, alphaOk]
    constructor
    · intro h
      cases h
    · intro h
      exact absurd ⟨h.1.1, h.1.2, h.2.1.1, h.2.1.2, h.2.2.1.1, h.2.2.1.2⟩ hch

theorem hexVal_le (c : Char) (x : ℕ) (h : Fdray.hexVal c = some x) : x ≤ 15 := by
  unfold Fdray.hexVal at h
  simp only [show '0'.toNat = 48 from rfl, show '9'.toNat = 57 from rfl,
    show 'a'.toNat = 97 from rfl, show 'f'.toNat = 102 from rfl,
    show 'A'.toNat = 65 from rfl, show 'F'.toNat = 70 from rfl] at h
  split_ifs at h with h1 h2 h3
  · injection h with h'
    omega
  · injection h with h'
    omega
  · injection h with h'
    omega

theorem int16two_le (a b : Char) (v : ℤ) (h : Fdray.int16two a b = some v) :
    v ≤ 255 := by
  unfold Fdray.int16two at h
  rcases ha : Fdray.hexVal a with _ | x <;> rcases hb : Fdray.hexVal b with _ | y <;>
    rw [ha, hb] at h <;> dsimp only at h
  · cases h
  · have hy := hexVal_le b y hb
    split_ifs at h <;> injection h with h' <;> omega
  · have hx := hexVal_le a x ha
    split_ifs at h
    injection h with h'
    omega
  · have hx := hexVal_le a x ha
    have hy := hexVal_le b y hb
    injection h with h'
    omega

theorem inRange_div255 (v : ℤ) (hv : v ≤ 255) :
    inRange ((v : ℚ) / 255) ↔ 0 ≤ v := by
  rw [inRange, div_le_one (by norm_num : (0 : ℚ) < 255)]
  constructor
  · rintro ⟨h1, -⟩
    have h2 : (0 : ℚ) ≤ (v : ℚ) := by
      by_contra hneg
      push_neg at hneg
      have : (v : ℚ) / 255 < 0 := div_neg_of_neg_of_pos hneg (by norm_num)
      linarith
    exact_mod_cast h2
  · intro h0
    constructor
    · exact div_nonneg (by exact_mod_cast h0) (by norm_num)
    · exact_mod_cast hv

theorem cnames_values_valid :
    cnamesTable.all (fun p => pyHex7Valid p.2) = true := by decide

theorem cnames_keys_no_hash :
    cnamesTable.all
      (fun p =>
        match p.1.data with
        | '#' :: _ => false
        | _ => true) = true := by decide

theorem lookup_none_aux {β : Type} (l : List (String × β)) (s : String)
    (h : ∀ p ∈ l, (s == p.1) = false) : l.lookup s = none := by
  induction l with
  | nil => rfl
  | cons p t ih =>
    have hp := h p (List.mem_cons_self p t)
    show (match s == p.1 with
      | true => some p.2
      | false => t.lookup s) = none
    rw [hp]
    exact ih (fun q hq => h q (List.mem_cons_of_mem p hq))

theorem lookup_hash (rest : List Char) :
    cnamesTable.lookup (String.mk ('#' :: rest)) = none := by
  apply lookup_none_aux
  intro p hp
  have h2 := List.all_eq_true.mp cnames_keys_no_hash p hp
  rw [beq_eq_false_iff_ne]
  intro heq
  rw [← heq] at h2
  simp at h2

theorem lookup_mem_val {β : Type} (l : List (String × β)) (s : String) (v : β)
    (h : l.lookup s = some v) : ∃ p ∈ l, p.2 = v := by
  induction l with
  | nil => cases h
  | cons p t ih =>
    have h' : (match s == p.1 with
      | true => some p.2
      | false => t.lookup s) = some v := h
    cases hbeq : s == p.1 <;> rw [hbeq] at h'
    · obtain ⟨q, hq, he⟩ := ih h'
      exact ⟨q, List.mem_cons_of_mem p hq, he⟩
    · injection h' with h''
      exact ⟨p, List.mem_cons_self p t, h''⟩

theorem hexPairs_spec (t : String) :
    (hexPairs t = .error () ∧ pyHex7Valid t = false)
    ∨ ∃ r g b : ℤ, r ≤ 255 ∧ g ≤ 255 ∧ b ≤ 255
        ∧ hexPairs t = .ok ((r : ℚ) / 255, (g : ℚ) / 255, (b : ℚ) / 255)
        ∧ (pyHex7Valid t = true ↔ 0 ≤ r ∧ 0 ≤ g ∧ 0 ≤ b) := by
  rw [hexPairs.eq_def, pyHex7Valid.eq_def]
  split
  case h_1 a b c d e f heq =>
    rcases h12 : Fdray.int16two a b with _ | r <;>
      rcases h34 : Fdray.int16two c d with _ | g <;>
      rcases h56 : Fdray.int16two e f with _ | bb <;>
      simp only [h12, h34, h56]
    all_goals try exact Or.inl ⟨trivial, trivial⟩
    refine Or.inr ⟨r, g, bb, int16two_le a b r h12, int16two_le c d g h34,
      int16two_le e f bb h56, by rfl, ?_⟩
    simp [Bool.and_eq_true, decide_eq_true_iff, and_assoc]
  case h_2 =>
    exact Or.inl ⟨rfl, rfl⟩

/-- C6 (amended): construction of the strict `Color` variant fails with a
validation error exactly when the input is invalid in the amended sense —
a tuple whose length is neither 3 nor 4, a channel or the effective alpha
outside `[0, 1]`, or a string that is neither a known color name nor a
`#`-code whose two-character channel/alpha fields are each accepted by
Python's base-16 parser with a nonnegative value (two hex digits, or a
single hex digit padded by whitespace or a `+` sign); equivalently,
construction succeeds exactly on the amended well-formed inputs. -/
theorem fdray_C6_valid_iff (spec : SSpec) (alpha : Option ℚ) :
    (strictInit spec alpha).isOk = true ↔ amendValid spec alpha := by
  cases spec with
  | ofTuple xs =>
    rcases xs with _ | ⟨r, _ | ⟨g, _ | ⟨b, _ | ⟨a, _ | ⟨x, rest⟩⟩⟩⟩⟩
    · show (Except.error ()).isOk = true ↔ False
      simp [Except.isOk, Except.toBool]
    · show (Except.error ()).isOk = true ↔ False
      simp [Except.isOk, Except.toBool]
    · show (Except.error ()).isOk = true ↔ False
      simp [Except.isOk, Except.toBool]
    · exact afterValidate_isOk r g b alpha
    · exact afterValidate_isOk r g b (some a)
    · show (Except.error ()).isOk = true ↔ False
      simp [Except.isOk, Except.toBool]
  | ofStr s =>
    rw [strictInit.eq_def, amendValid.eq_def]
    dsimp only
    split
    case h_1 c1 c2 c3 c4 c5 c6 c7 c8 heq =>
      have hs : s = String.mk ['#', c1, c2, c3, c4, c5, c6, c7, c8] := by
        cases s with
        | mk d => exact congrArg String.mk heq
      have hrgb : strictRgb (String.mk ['#', c1, c2, c3, c4, c5, c6])
          = hexPairs (String.mk ['#', c1, c2, c3, c4, c5, c6]) := by
        rw [strictRgb, lookup_hash]
        rfl
      have hkn : knownName s = false := by
        rw [hs, knownName, lookup_hash]
        rfl
      have h7 : pyHex7Valid s = false := by
        rw [pyHex7Valid.eq_def, heq]
        rfl
      rw [hrgb, hexPairs.eq_def, pyHex9Valid.eq_def, heq, hkn, h7]
      dsimp only
      rcases h78 : Fdray.int16two c7 c8 with _ | v <;>
        rcases h12 : Fdray.int16two c1 c2 with _ | r <;>
        rcases h34 : Fdray.int16two c3 c4 with _ | g <;>
        rcases h56 : Fdray.int16two c5 c6 with _ | b <;>
        simp only [h12, h34, h56, h78]
      all_goals try (simp [Except.isOk, Except.toBool]; done)
      rw [afterValidate_isOk]
      rw [inRange_div255 r (int16two_le c1 c2 r h12),
        inRange_div255 g (int16two_le c3 c4 g h34),
        inRange_div255 b (int16two_le c5 c6 b h56)]
      have halpha : alphaOk (some ((v : ℚ) / 255)) ↔ 0 ≤ v :=
        inRange_div255 v (int16two_le c7 c8 v h78)
      rw [halpha]
      simp only [Bool.and_eq_true, decide_eq_true_iff, Bool.false_eq_true,
        false_or, or_false, false_and, and_false, and_assoc]
    case h_2 hB =>
      have h9 : pyHex9Valid s = false := by
        rw [pyHex9Valid.eq_def]
        split
        case h_1 c1 c2 c3 c4 c5 c6 c7 c8 heq' =>
          exact absurd heq' (fun h => hB c1 c2 c3 c4 c5 c6 c7 c8 h)
        case h_2 => rfl
      rw [h9]
      have hsr : strictRgb s = hexPairs ((cnamesTable.lookup s).getD s) := rfl
      cases hlk : cnamesTable.lookup s with
      | some v =>
        have hkn : knownName s = true := by
          rw [knownName, hlk]
          rfl
        obtain ⟨p, hp, hpv⟩ := lookup_mem_val cnamesTable s v hlk
        have hval : pyHex7Valid v = true := by
          rw [← hpv]
          exact List.all_eq_true.mp cnames_values_valid p hp
        rcases hexPairs_spec v with ⟨-, h7f⟩ | ⟨r, g, b, hr, hg, hb, hok, hiff⟩
        · rw [hval] at h7f
          cases h7f
        · rw [hsr, hlk]
          dsimp only [Option.getD]
          rw [hok]
          dsimp only
          rw [afterValidate_isOk]
          rw [inRange_div255 r hr, inRange_div255 g hg, inRange_div255 b hb]
          have hnn := hiff.mp hval
          simp [hkn, hnn.1, hnn.2.1, hnn.2.2]
      | none =>
        have hkn : knownName s = false := by
          rw [knownName, hlk]
          rfl
        rw [hsr, hlk]
        dsimp only [Option.getD]
        rcases hexPairs_spec s with ⟨herr, h7f⟩ | ⟨r, g, b, hr, hg, hb, hok, hiff⟩
        · rw [herr]
          dsimp only
          simp [hkn, h7f, Except.isOk, Except.toBool]
        · rw [hok]
          dsimp only
          rw [afterValidate_isOk]
          rw [inRange_div255 r hr, inRange_div255 g hg, inRange_div255 b hb]
          rw [hkn]
          simp only [Bool.false_eq_true, false_or]
          constructor
          · rintro ⟨h1, h2, h3, h4⟩
            exact ⟨hiff.mpr ⟨h1, h2, h3⟩, h4⟩
          · rintro ⟨h1, h2⟩
            obtain ⟨hh1, hh2, hh3⟩ := hiff.mp h1
            exact ⟨hh1, hh2, hh3, h2⟩

end ColorStrict

open ColorStrict

/-- C6, counterexample: `Color("#+0+0+0")` constructs successfully — the
`cnames` lookup misses, the string passes the `#`/length-7 check, and each
two-character field `"+0"` is accepted by Python's `int(_, 16)` — yet
`"#+0+0+0"` is neither a known color name nor a `#RRGGBB`/`#RRGGBBAA` hex
code, so the claim says construction must fail. -/
theorem fdray_C6_counterexample :
    (strictInit (.ofStr "#+0+0+0") none).isOk = true
    ∧ ¬ claimValid (.ofStr "#+0+0+0") none := by
  constructor
  · have h1 : strictInit (.ofStr "#+0+0+0") none
        = afterValidate (((0 : ℤ) : ℚ) / 255) (((0 : ℤ) : ℚ) / 255)
            (((0 : ℤ) : ℚ) / 255) none := rfl
    rw [h1, afterValidate_isOk]
    refine ⟨?_, ?_, ?_, trivial⟩ <;> exact ⟨by norm_num, by norm_num⟩
  · simp only [claimValid, alphaOk]
    decide

end Fdray
